import Mathlib

/-!
Verification of the `shaded` window-shade controller (src/shaded.rs).

The position estimator (`ShadeState`), the actuator (`ShadeHandle`) and the
per-connection command dispatch of `handle_client` are embedded shallowly:

* `Instant` timestamps and elapsed durations become natural numbers counting
  microseconds (the code converts every duration with `as_micros` before the
  arithmetic).  Each operation takes the current clock reading `now : Nat` as
  a parameter; `t.elapsed()` becomes `now - t` (Rust's monotonic clock
  guarantees the reading is never behind the stored timestamp, and Nat
  subtraction truncates at zero exactly like the saturating behaviour of
  `Instant::elapsed`).  Consecutive `Instant::now()` calls inside one
  operation are modelled as a single reading.
* `u16` positions become `Nat` with the explicit saturating operations the
  code uses (`saturating_add` clamps at 65535, `saturating_sub` at 0); all
  reachable states keep both positions within `[0, 65535]`.
* The u128 intermediate `(u16::MAX as u128 * dur.as_micros())` cannot
  overflow (the factors are far below 2^128 for any realistic duration), so
  it is plain Nat arithmetic.
* GPIO writes (`LineHandle::set_value`) can fail; each call site gets a
  Boolean oracle saying whether that write fails, and successful writes are
  recorded in an event trace so that "no pulse is issued" is the trace being
  empty.
-/

/-- Microseconds of `TIME_TO_TOP = Duration::from_millis(16788)`. -/
def timeToTopMicros : Nat := 16788000

/-- Microseconds of `TIME_TO_BOTTOM = Duration::from_millis(16718)`. -/
def timeToBottomMicros : Nat := 16718000

/-- The enum `MovementState`; the stored `Instant` is a microsecond
timestamp. -/
inductive MovementState : Type where
  | MovingUp (t : Nat)
  | MovingDown (t : Nat)
  | Stopped
deriving DecidableEq, Repr

/-- The struct `ShadeState`: movement plus the `[min_pos, max_pos]` bound
(`u16` fields modelled as `Nat`, kept within `[0, 65535]` by the saturating
arithmetic below). -/
structure ShadeState : Type where
  movement : MovementState
  max_pos : Nat
  min_pos : Nat
deriving DecidableEq, Repr

/-- `u16::saturating_add` on values in `[0, 65535]`. -/
def satAdd (a b : Nat) : Nat := min (a + b) 65535

/-- `u16::saturating_sub` (Nat subtraction already truncates at zero). -/
def satSub (a b : Nat) : Nat := a - b

/-- `ShadeState::default()`: `Stopped`, `max_pos = u16::MAX`, `min_pos = 0`. -/
def initState : ShadeState :=
  { movement := MovementState.Stopped, max_pos := 65535, min_pos := 0 }

namespace ShadeState

/-- `ShadeState::record` at clock reading `now`: resolve the time elapsed
under the current movement into a position change.  Mirrors src/shaded.rs
lines 54-85 branch by branch. -/
def record (now : Nat) (st : ShadeState) : ShadeState :=
  match st.movement with
  | MovementState.MovingUp t =>
      let dur := now - t
      let moved := 65535 * dur / timeToTopMicros
      let moved := min moved 65535
      let newMax := satAdd st.max_pos moved
      let newMin := satAdd st.min_pos moved
      { movement :=
          if newMin = 65535 then MovementState.Stopped
          else MovementState.MovingUp now,
        max_pos := newMax, min_pos := newMin }
  | MovementState.MovingDown t =>
      let dur := now - t
      let moved := 65535 * dur / timeToBottomMicros
      let moved := min moved 65535
      let newMax := satSub st.max_pos moved
      let newMin := satSub st.min_pos moved
      { movement :=
          if newMax = 0 then MovementState.Stopped
          else MovementState.MovingDown now,
        max_pos := newMax, min_pos := newMin }
  | MovementState.Stopped => st

/-- `ShadeState::move_up`: record, then start moving up at `now`. -/
def move_up (now : Nat) (st : ShadeState) : ShadeState :=
  { st.record now with movement := MovementState.MovingUp now }

/-- `ShadeState::move_down`: record, then start moving down at `now`. -/
def move_down (now : Nat) (st : ShadeState) : ShadeState :=
  { st.record now with movement := MovementState.MovingDown now }

/-- `ShadeState::stop`: record, then stop. -/
def stop (now : Nat) (st : ShadeState) : ShadeState :=
  { st.record now with movement := MovementState.Stopped }

/-- `ShadeState::json`, transcribing the `push_str` sequence of
src/shaded.rs lines 86-101 (the final `push('}')` appends the single
closing-brace character). -/
def json (st : ShadeState) : String :=
  "\x7b\"state\": \""
    ++ (match st.movement with
        | MovementState.MovingUp _ => "up"
        | MovementState.MovingDown _ => "down"
        | MovementState.Stopped => "stopped")
    ++ "\",\"max_pos\":"
    ++ toString st.max_pos
    ++ ",\"min_pos\":"
    ++ toString st.min_pos
    ++ ",\"probably\":"
    ++ toString (st.max_pos / 2 + st.min_pos / 2)
    ++ "\x7d"

end ShadeState

/-- One estimator operation together with the clock reading at which it
runs; used to describe the reachable states of the estimator. -/
inductive Op : Type where
  | moveUp (now : Nat)
  | moveDown (now : Nat)
  | stop (now : Nat)
  | reconcile (now : Nat)
deriving DecidableEq, Repr

/-- Apply one operation to an estimator state. -/
def applyOp (o : Op) (st : ShadeState) : ShadeState :=
  match o with
  | Op.moveUp now => st.move_up now
  | Op.moveDown now => st.move_down now
  | Op.stop now => st.stop now
  | Op.reconcile now => st.record now

/-- Run a sequence of operations from a state. -/
def runOps (ops : List Op) (st : ShadeState) : ShadeState :=
  ops.foldl (fun s o => applyOp o s) st

/-- Result of a GPIO write sequence, standing in for
`gpio_cdev::errors::Result<()>`. -/
inductive GpioResult : Type where
  | ok
  | err
deriving DecidableEq, Repr

/-- A successful `set_value` call on one of the three output lines. -/
inductive Ev : Type where
  | setUp (v : Nat)
  | setDown (v : Nat)
  | setStop (v : Nat)
deriving DecidableEq, Repr

namespace ShadeHandle

/-- `ShadeHandle::up` (src/shaded.rs lines 112-118).  `fail1` and `fail2`
say whether the activation and deactivation writes fail.  The activation
write's error propagates via `?` before `move_up` runs; the deactivation
error is discarded by `let _ =`. -/
def up (fail1 fail2 : Bool) (now : Nat) (st : ShadeState) :
    GpioResult × ShadeState × List Ev :=
  if fail1 then (GpioResult.err, st, [])
  else
    (GpioResult.ok, st.move_up now,
      if fail2 then [Ev.setUp 1] else [Ev.setUp 1, Ev.setUp 0])

/-- `ShadeHandle::down` (src/shaded.rs lines 119-125), symmetric to `up`. -/
def down (fail1 fail2 : Bool) (now : Nat) (st : ShadeState) :
    GpioResult × ShadeState × List Ev :=
  if fail1 then (GpioResult.err, st, [])
  else
    (GpioResult.ok, st.move_down now,
      if fail2 then [Ev.setDown 1] else [Ev.setDown 1, Ev.setDown 0])

/-- `ShadeHandle::stop` (src/shaded.rs lines 126-137): first `record` (at
`now1`); if the movement is then `Stopped`, return `Ok` with no write at
all.  Otherwise pulse the stop line and call `ShadeState::stop` (whose
inner `record` runs at `now2`). -/
def stop (fail1 fail2 : Bool) (now1 now2 : Nat) (st : ShadeState) :
    GpioResult × ShadeState × List Ev :=
  let st1 := st.record now1
  match st1.movement with
  | MovementState.Stopped => (GpioResult.ok, st1, [])
  | _ =>
    if fail1 then (GpioResult.err, st1, [])
    else
      (GpioResult.ok, st1.stop now2,
        if fail2 then [Ev.setStop 1] else [Ev.setStop 1, Ev.setStop 0])

end ShadeHandle

/-- The action the dispatcher takes for one loop iteration of
`handle_client`. -/
inductive DispatchAction : Type where
  | up
  | down
  | stop
  | record
deriving DecidableEq, Repr

/-- One iteration of the `handle_client` read loop: `read_line` appends the
newly received line (newline included) to the persistent `line` buffer, and
the accumulated buffer is compared against the three commands
(src/shaded.rs lines 144-158). -/
def lineStep (buf received : String) : String × DispatchAction :=
  let buf := buf ++ received ++ "\n"
  if buf = "up\n" then (buf, DispatchAction.up)
  else if buf = "down\n" then (buf, DispatchAction.down)
  else if buf = "stop\n" then (buf, DispatchAction.stop)
  else (buf, DispatchAction.record)

/-- The actions `handle_client` takes for a connection whose client sends
the given newline-terminated lines (each list entry is a line without its
terminator).  The buffer starts empty and is never cleared, exactly as in
the source. -/
def handleClientActions (lines : List String) : List DispatchAction :=
  (lines.foldl
    (fun (acc : String × List DispatchAction) received =>
      let r := lineStep acc.1 received
      (r.1, acc.2 ++ [r.2]))
    ("", [])).2

/-- The per-line command mapping the specification describes: `"up"`,
`"down"` and `"stop"` actuate, any other line only reconciles. -/
def specLineAction (received : String) : DispatchAction :=
  if received = "up" then DispatchAction.up
  else if received = "down" then DispatchAction.down
  else if received = "stop" then DispatchAction.stop
  else DispatchAction.record

section SpecSide

/-- Modelled from the spec: clamping a value to a closed interval. -/
def clamp (lo hi x : Nat) : Nat := max lo (min x hi)

/-- Modelled from the spec: `moved = floor(65535 * elapsed / travel)`
clamped to `[0, 65535]`. -/
def movedSpec (elapsed travel : Nat) : Nat :=
  clamp 0 65535 (65535 * elapsed / travel)

/-- Modelled from the spec: saturating addition at 65535. -/
def satAddSpec (a b : Nat) : Nat := if 65535 ≤ a + b then 65535 else a + b

/-- Modelled from the spec: saturating subtraction at 0. -/
def satSubSpec (a b : Nat) : Nat := if b ≤ a then a - b else 0

/-- The spec's description of reconciling a `MovingUp(t)` state at `now`:
add the clamped moved amount to both bounds, stop exactly when `min_pos`
reaches 65535, otherwise keep moving up with a refreshed timestamp. -/
def reconcileUpSpec (st : ShadeState) (t now : Nat) : ShadeState :=
  let moved := movedSpec (now - t) timeToTopMicros
  let newMin := satAddSpec st.min_pos moved
  let newMax := satAddSpec st.max_pos moved
  { movement :=
      if newMin = 65535 then MovementState.Stopped
      else MovementState.MovingUp now,
    max_pos := newMax, min_pos := newMin }

/-- The spec's description of reconciling a `MovingDown(t)` state at `now`:
subtract the moved amount computed against the downward travel time from
both bounds, stop exactly when `max_pos` reaches 0. -/
def reconcileDownSpec (st : ShadeState) (t now : Nat) : ShadeState :=
  let moved := movedSpec (now - t) timeToBottomMicros
  let newMin := satSubSpec st.min_pos moved
  let newMax := satSubSpec st.max_pos moved
  { movement :=
      if newMax = 0 then MovementState.Stopped
      else MovementState.MovingDown now,
    max_pos := newMax, min_pos := newMin }

/-- The snapshot string the spec describes: a JSON object with exactly the
fields `state`, `max_pos`, `min_pos` and `probably`. -/
def snapshotSpec (stateName : String) (maxp minp probably : Nat) : String :=
  "\x7b\"state\": \"" ++ stateName ++ "\",\"max_pos\":" ++ toString maxp
    ++ ",\"min_pos\":" ++ toString minp
    ++ ",\"probably\":" ++ toString probably ++ "\x7d"

/-- The state-name string of each movement variant, as the spec lists
them. -/
def stateNameSpec (mv : MovementState) : String :=
  match mv with
  | MovementState.MovingUp _ => "up"
  | MovementState.MovingDown _ => "down"
  | MovementState.Stopped => "stopped"

end SpecSide

section Lemmas

lemma satAdd_le_satAdd {a b : Nat} (m : Nat) (h : a ≤ b) :
    satAdd a m ≤ satAdd b m := by
  unfold satAdd; omega

lemma satSub_le_satSub {a b : Nat} (m : Nat) (h : a ≤ b) :
    satSub a m ≤ satSub b m := by
  unfold satSub; omega

lemma record_min_le_max (now : Nat) (st : ShadeState)
    (h : st.min_pos ≤ st.max_pos) :
    (st.record now).min_pos ≤ (st.record now).max_pos := by
  cases hm : st.movement with
  | MovingUp t =>
      simp only [ShadeState.record, hm]
      exact satAdd_le_satAdd _ h
  | MovingDown t =>
      simp only [ShadeState.record, hm]
      exact satSub_le_satSub _ h
  | Stopped =>
      simp only [ShadeState.record, hm]
      exact h

lemma applyOp_min_le_max (o : Op) (st : ShadeState)
    (h : st.min_pos ≤ st.max_pos) :
    (applyOp o st).min_pos ≤ (applyOp o st).max_pos := by
  cases o with
  | moveUp now =>
      simpa only [applyOp, ShadeState.move_up] using record_min_le_max now st h
  | moveDown now =>
      simpa only [applyOp, ShadeState.move_down] using record_min_le_max now st h
  | stop now =>
      simpa only [applyOp, ShadeState.stop] using record_min_le_max now st h
  | reconcile now =>
      exact record_min_le_max now st h

lemma runOps_min_le_max : ∀ (ops : List Op) (st : ShadeState),
    st.min_pos ≤ st.max_pos →
    (runOps ops st).min_pos ≤ (runOps ops st).max_pos := by
  intro ops
  induction ops with
  | nil => intro st h; exact h
  | cons o rest ih =>
      intro st h
      simpa only [runOps, List.foldl_cons] using
        ih (applyOp o st) (applyOp_min_le_max o st h)

end Lemmas

/-- C1: starting from the initial state (`min_pos = 0`, `max_pos = 65535`,
`Stopped`) and applying any sequence of `move_up`, `move_down`, `stop` and
reconcile operations at any clock readings, the invariant
`min_pos ≤ max_pos` holds after every transition. -/
theorem c1_invariant_reachable (ops : List Op) :
    (runOps ops initState).min_pos ≤ (runOps ops initState).max_pos :=
  runOps_min_le_max ops initState (by decide)

section Bridging

lemma satAdd_eq_spec (a b : Nat) : satAdd a b = satAddSpec a b := by
  unfold satAdd satAddSpec; split <;> omega

lemma satSub_eq_spec (a b : Nat) : satSub a b = satSubSpec a b := by
  unfold satSub satSubSpec; split <;> omega

lemma moved_eq_spec (e travel : Nat) :
    min (65535 * e / travel) 65535 = movedSpec e travel := by
  simp [movedSpec, clamp]

end Bridging

/-- C2: reconciling a `MovingUp(t)` state at clock `now` computes
`moved = floor(65535 * elapsed / TIME_TO_TOP)` clamped to `[0, 65535]`,
adds it to both bounds with saturation at 65535, and stops exactly when
`min_pos` reaches 65535, otherwise keeps `MovingUp` with a refreshed
timestamp; the `MovingDown` case is symmetric against the downward travel
time, subtracting with saturation at 0 and stopping when `max_pos` reaches
0. -/
theorem c2_reconcile_spec (t maxp minp now : Nat) :
    ShadeState.record now ⟨MovementState.MovingUp t, maxp, minp⟩ =
      reconcileUpSpec ⟨MovementState.MovingUp t, maxp, minp⟩ t now ∧
    ShadeState.record now ⟨MovementState.MovingDown t, maxp, minp⟩ =
      reconcileDownSpec ⟨MovementState.MovingDown t, maxp, minp⟩ t now := by
  constructor
  · simp only [ShadeState.record, reconcileUpSpec, moved_eq_spec,
      satAdd_eq_spec]
  · simp only [ShadeState.record, reconcileDownSpec, moved_eq_spec,
      satSub_eq_spec]

/-- C6: calling `ShadeHandle::stop` on an estimator that is already
`Stopped` is a no-op: it returns `Ok`, performs no write on any output
line, and leaves the estimator state (bounds included) unchanged,
whatever the write oracles and clock readings are. -/
theorem c6_stop_noop (f1 f2 : Bool) (now1 now2 maxp minp : Nat) :
    ShadeHandle.stop f1 f2 now1 now2 ⟨MovementState.Stopped, maxp, minp⟩ =
      (GpioResult.ok, ⟨MovementState.Stopped, maxp, minp⟩, []) := rfl

/-- C3 (code behaviour at the failing input): because `handle_client`
never clears its `line` buffer and `read_line` appends, a second `"up"`
line compares the accumulated buffer `"up\nup\n"` and falls through to the
reconcile-only branch, while the per-line mapping the spec describes would
actuate on both lines. -/
theorem c3_buffer_accumulation :
    handleClientActions ["up", "up"] =
      [DispatchAction.up, DispatchAction.record] ∧
    List.map specLineAction ["up", "up"] =
      [DispatchAction.up, DispatchAction.up] := by
  constructor <;> rfl

/-- C4 (counterexample): at a concrete input where `ShadeHandle::up`
returns an error (the activation write fails), the estimator state is
unchanged and is not the `move_up`-advanced state, contradicting the claim
that the estimator has already been advanced when the error is returned. -/
theorem c4_counterexample :
    (ShadeHandle.up true false 0 initState).1 = GpioResult.err ∧
    (ShadeHandle.up true false 0 initState).2.1 = initState ∧
    initState.move_up 0 ≠ initState := by decide

/-- C4 (amended): `ShadeHandle::up` can only return an error from the
activation write, which runs before `move_up`; on such an error the
estimator state is unchanged and no output event has been issued, and when
the activation write succeeds the call returns `Ok` (the deactivation
write's failure is swallowed). -/
theorem c4_amended (f2 : Bool) (now : Nat) (st : ShadeState) :
    ShadeHandle.up true f2 now st = (GpioResult.err, st, []) ∧
    (ShadeHandle.up false f2 now st).1 = GpioResult.ok := by
  constructor <;> rfl

/-- C5 (counterexample): starting from the fresh state, `move_up` at time
0 followed by reconciles at 8394000 µs and 16788000 µs has cumulative
elapsed time exactly `TIME_TO_TOP`, yet ends with `min_pos = 65534` (not
65535) and still `MovingUp`: each reconcile floors away half a unit, so
cumulative elapsed ≥ `TIME_TO_TOP` does not force saturation. -/
theorem c5_counterexample :
    (8394000 - 0) + (16788000 - 8394000) = timeToTopMicros ∧
    (runOps [Op.moveUp 0, Op.reconcile 8394000, Op.reconcile 16788000]
      initState).min_pos = 65534 ∧
    (runOps [Op.moveUp 0, Op.reconcile 8394000, Op.reconcile 16788000]
      initState).movement = MovementState.MovingUp 16788000 := by decide

/-- C5 (amended): a single reconcile of a `MovingUp` state whose elapsed
time is at least `TIME_TO_TOP` drives `min_pos` to exactly 65535 and the
movement state to `Stopped`, regardless of the starting bounds. -/
theorem c5_amended (t maxp minp now : Nat)
    (h : timeToTopMicros ≤ now - t) :
    (ShadeState.record now ⟨MovementState.MovingUp t, maxp, minp⟩).min_pos
        = 65535 ∧
    (ShadeState.record now ⟨MovementState.MovingUp t, maxp, minp⟩).movement
        = MovementState.Stopped := by
  have hT : 0 < timeToTopMicros := by decide
  have hmul : 65535 * timeToTopMicros ≤ 65535 * (now - t) :=
    Nat.mul_le_mul_left _ h
  have hmoved : 65535 ≤ 65535 * (now - t) / timeToTopMicros :=
    (Nat.le_div_iff_mul_le hT).2 hmul
  have hmin : min (65535 * (now - t) / timeToTopMicros) 65535 = 65535 :=
    min_eq_right hmoved
  have hsat : satAdd minp 65535 = 65535 := by unfold satAdd; omega
  simp only [ShadeState.record, hmin, hsat]
  simp

/-- Witness for `c5_amended` at the concrete input `t = 0`,
`now = 16788000`, starting bounds `[0, 65535]`. -/
theorem c5_amended_witness :
    timeToTopMicros ≤ 16788000 - 0 ∧
    ((ShadeState.record 16788000
        ⟨MovementState.MovingUp 0, 65535, 0⟩).min_pos = 65535 ∧
     (ShadeState.record 16788000
        ⟨MovementState.MovingUp 0, 65535, 0⟩).movement
        = MovementState.Stopped) :=
  ⟨by decide, c5_amended 0 65535 0 16788000 (by decide)⟩

lemma le_satAdd {a : Nat} (m : Nat) (ha : a ≤ 65535) : a ≤ satAdd a m := by
  unfold satAdd; omega

lemma satSub_le (a m : Nat) : satSub a m ≤ a := by
  unfold satSub; omega

/-- C7: a reconcile of a `MovingUp` state never decreases either bound
(given the `u16` range of the bounds), and a reconcile of a `MovingDown`
state never increases either bound, for every elapsed duration. -/
theorem c7_monotone (t maxp minp now : Nat)
    (hmax : maxp ≤ 65535) (hmin : minp ≤ 65535) :
    (minp ≤ (ShadeState.record now
        ⟨MovementState.MovingUp t, maxp, minp⟩).min_pos ∧
      maxp ≤ (ShadeState.record now
        ⟨MovementState.MovingUp t, maxp, minp⟩).max_pos) ∧
    ((ShadeState.record now
        ⟨MovementState.MovingDown t, maxp, minp⟩).min_pos ≤ minp ∧
      (ShadeState.record now
        ⟨MovementState.MovingDown t, maxp, minp⟩).max_pos ≤ maxp) :=
  ⟨⟨le_satAdd _ hmin, le_satAdd _ hmax⟩, satSub_le _ _, satSub_le _ _⟩

/-- Witness for `c7_monotone` at `t = 0`, bounds `[0, 65535]`,
`now = 1000`. -/
theorem c7_monotone_witness :
    ((65535 : Nat) ≤ 65535 ∧ (0 : Nat) ≤ 65535) ∧
    (((0 : Nat) ≤ (ShadeState.record 1000
          ⟨MovementState.MovingUp 0, 65535, 0⟩).min_pos ∧
        (65535 : Nat) ≤ (ShadeState.record 1000
          ⟨MovementState.MovingUp 0, 65535, 0⟩).max_pos) ∧
      ((ShadeState.record 1000
          ⟨MovementState.MovingDown 0, 65535, 0⟩).min_pos ≤ 0 ∧
        (ShadeState.record 1000
          ⟨MovementState.MovingDown 0, 65535, 0⟩).max_pos ≤ 65535)) :=
  ⟨⟨by decide, by decide⟩, c7_monotone 0 65535 0 1000 (by decide) (by decide)⟩

/-- C8: for every state within the `u16` range, the snapshot string is
exactly the JSON object with the fields `state` (matching the movement
variant), `max_pos`, `min_pos` and `probably`, where `probably` is
`max_pos / 2 + min_pos / 2` with each half a separate truncating division,
and that value never exceeds 65535. -/
theorem c8_snapshot (mv : MovementState) (maxp minp : Nat)
    (hmax : maxp ≤ 65535) (hmin : minp ≤ 65535) :
    ShadeState.json ⟨mv, maxp, minp⟩ =
      snapshotSpec (stateNameSpec mv) maxp minp (maxp / 2 + minp / 2) ∧
    maxp / 2 + minp / 2 ≤ 65535 := by
  constructor
  · cases mv <;> rfl
  · omega

/-- Witness for `c8_snapshot` at the stopped state with bounds
`[0, 65535]`. -/
theorem c8_snapshot_witness :
    ((65535 : Nat) ≤ 65535 ∧ (0 : Nat) ≤ 65535) ∧
    (ShadeState.json ⟨MovementState.Stopped, 65535, 0⟩ =
        snapshotSpec (stateNameSpec MovementState.Stopped) 65535 0
          (65535 / 2 + 0 / 2) ∧
      65535 / 2 + 0 / 2 ≤ 65535) :=
  ⟨⟨by decide, by decide⟩,
    c8_snapshot MovementState.Stopped 65535 0 (by decide) (by decide)⟩

/-- C10: if the initial reconcile inside `ShadeHandle::stop` collapses a
moving state to `Stopped` on its own, the call returns `Ok` with the
reconciled state and performs no write at all: no stop pulse is ever sent,
even though the shade had been commanded to move. -/
theorem c10_stop_after_collapse (f1 f2 : Bool)
    (t maxp minp now1 now2 : Nat) :
    ((ShadeState.record now1
        ⟨MovementState.MovingUp t, maxp, minp⟩).movement
          = MovementState.Stopped →
      ShadeHandle.stop f1 f2 now1 now2
          ⟨MovementState.MovingUp t, maxp, minp⟩ =
        (GpioResult.ok,
          ShadeState.record now1 ⟨MovementState.MovingUp t, maxp, minp⟩,
          [])) ∧
    ((ShadeState.record now1
        ⟨MovementState.MovingDown t, maxp, minp⟩).movement
          = MovementState.Stopped →
      ShadeHandle.stop f1 f2 now1 now2
          ⟨MovementState.MovingDown t, maxp, minp⟩ =
        (GpioResult.ok,
          ShadeState.record now1 ⟨MovementState.MovingDown t, maxp, minp⟩,
          [])) := by
  constructor <;> intro h <;> simp [ShadeHandle.stop, h]

/-- Witness for `c10_stop_after_collapse`: a full upward travel time
(16788000 µs) collapses `MovingUp` to `Stopped`, and a full downward
travel time (16718000 µs) collapses `MovingDown` to `Stopped`; in both
cases `stop` then writes nothing. -/
theorem c10_stop_after_collapse_witness :
    ((ShadeState.record 16788000
        ⟨MovementState.MovingUp 0, 65535, 0⟩).movement
          = MovementState.Stopped ∧
      ShadeHandle.stop false false 16788000 16788000
          ⟨MovementState.MovingUp 0, 65535, 0⟩ =
        (GpioResult.ok,
          ShadeState.record 16788000 ⟨MovementState.MovingUp 0, 65535, 0⟩,
          [])) ∧
    ((ShadeState.record 16718000
        ⟨MovementState.MovingDown 0, 65535, 0⟩).movement
          = MovementState.Stopped ∧
      ShadeHandle.stop false false 16718000 16718000
          ⟨MovementState.MovingDown 0, 65535, 0⟩ =
        (GpioResult.ok,
          ShadeState.record 16718000
            ⟨MovementState.MovingDown 0, 65535, 0⟩,
          [])) :=
  ⟨⟨by decide,
      (c10_stop_after_collapse false false 0 65535 0 16788000 16788000).1
        (by decide)⟩,
    ⟨by decide,
      (c10_stop_after_collapse false false 0 65535 0 16718000 16718000).2
        (by decide)⟩⟩
